import Mathlib

/-!
A verification development for the `PostgresGraphStore` adapter
(`llama_index/graph_stores/postgres/base.py`), a thin triplet-store wrapper
over the Apache AGE graph extension of Postgres.

Modelling conventions:
  * Python strings are modelled as `List Char` (`PyStr`); `.upper()` is
    modelled with `Char.toUpper` (the adapter only manipulates ASCII
    relation/label text).
  * Each `execCypher` round trip is recorded as a `CypherCall` value
    (query text, requested columns, bound positional parameters), so that
    theorems can speak about what is interpolated into the query text
    versus what is bound as a parameter, and about which calls are issued.
  * The graph state visible through the adapter's own queries is modelled
    as a `Graph`: the list of node ids carrying the configured label, and
    the list of directed typed edges.  The semantics of each Cypher
    statement the adapter issues (MERGE / MATCH ... DELETE / count) is
    translated clause by clause from the query text in the source.
  * Python exceptions that the claims mention are the constructors of
    `PyError`.
-/

/-- Python strings, modelled as their character lists. -/
abbrev PyStr := List Char

/-- Embed a Lean string literal as a Python string value. -/
def pystr (s : String) : PyStr := s.data

/-- The Python exceptions relevant to this adapter:
`ValueError` (raised by `__init__` on connection failure),
`NotImplementedError` (raised by `get_schema` and `query`),
`ConnectionError` (named by the spec, never raised by the code),
`UnboundLocalError` (reading a never-assigned local variable). -/
inductive PyError where
  | valueError (msg : String)
  | notImplementedError
  | connectionError
  | unboundLocalError (varName : String)
deriving DecidableEq, Repr

/-- `rel.replace(" ", "_")` — Python `str.replace` with the single-character
pattern `" "` replaces every space, i.e. maps characters pointwise. -/
def pyReplaceSpaceUnderscore (s : PyStr) : PyStr :=
  s.map (fun c => if c = ' ' then '_' else c)

/-- Python `str.upper()` (ASCII fragment). -/
def pyUpper (s : PyStr) : PyStr :=
  s.map Char.toUpper

/-- The relation normalisation performed by `upsert_triplet`
(base.py line 131): `rel = rel.replace(" ", "_").upper()`. -/
def upsertNormalizeRel (r : PyStr) : PyStr :=
  pyUpper (pyReplaceSpaceUnderscore r)

/-- The relation normalisation performed by `delete.delete_rel`
(base.py line 145): `rel = rel.replace(" ", "_").upper()`. -/
def deleteNormalizeRel (r : PyStr) : PyStr :=
  pyUpper (pyReplaceSpaceUnderscore r)

/-- Python `str(n)` for the non-negative ints spliced into query text. -/
def pyStrOfNat (n : Nat) : PyStr := (Nat.repr n).data

/-- Python `str.lower()` (ASCII fragment), used on subjects in
`get_rel_map`. -/
def pyLower (s : PyStr) : PyStr :=
  s.map Char.toLower

/-- The f-string rendering `{[subj.lower() for subj in subjs]}` in
`get_rel_map` (base.py line 115): the Python `repr` of a list of strings,
for strings containing no quote or backslash characters (the escaping of
`repr` on such characters is not modelled). -/
def pyListRepr (l : List PyStr) : PyStr :=
  '[' :: (List.intercalate (pystr ", ")
    (l.map (fun s => '\'' :: (s ++ ['\''])))) ++ [']']

/-- One `execCypher` round trip: the query text sent, the `cols` argument
(`none` when omitted), and the tuple of bound positional parameters. -/
structure CypherCall where
  queryText : PyStr
  cols : Option (List PyStr)
  boundParams : List PyStr
deriving DecidableEq, Repr

/-- Query text of `get` (base.py lines 80–84). -/
def getQuery (label : PyStr) : PyStr :=
  pystr "\n            MATCH (n1:`" ++ label ++
  pystr "`)-[r]->(n2:`" ++ label ++
  pystr "`)\n            WHERE n1.id = %s\n            RETURN type(r), n2.id\n        "

/-- Query text of `get_rel_map` (base.py lines 113–121): `depth`, `limit`
and the lower-cased subject list are spliced into the f-string, as is the
node label. -/
def getRelMapQuery (label : PyStr) (depth limit : Nat) (subjs : List PyStr) : PyStr :=
  pystr "\n            MATCH p=(n1:`" ++ label ++
  pystr "`)-[*1.." ++ pyStrOfNat depth ++
  pystr "]->()\n            WHERE toLower(n1.id) IN " ++
  pyListRepr (subjs.map pyLower) ++
  pystr "\n            UNWIND relationships(p) AS rel WITH n1.id AS subj, p,\n            collect([type(rel), endNode(rel).id]) AS flattened_rels\n            UNWIND flattened_rels as fr\n            WITH DISTINCT fr, subj\n            RETURN subj, collect(fr) AS flattened_rels LIMIT " ++
  pyStrOfNat limit ++ pystr "\n        "

/-- Query text of `upsert_triplet` (base.py lines 132–136): the node label
and the normalised relation are interpolated; the two `%s` are the bound
node ids. -/
def upsertQuery (label rel : PyStr) : PyStr :=
  pystr "\n            MERGE (n1:`" ++ label ++
  pystr "` \x7bid: %s\x7d)\n            MERGE (n2:`" ++ label ++
  pystr "` \x7bid: %s\x7d)\n            MERGE (n1)-[:`" ++ rel ++
  pystr "`]->(n2)\n        "

/-- Query text of `delete.delete_rel` (base.py lines 146–149). -/
def deleteRelQuery (label rel : PyStr) : PyStr :=
  pystr "\n                MATCH (n1:`" ++ label ++
  pystr "`)-[r:`" ++ rel ++
  pystr "`]->(n2:`" ++ label ++
  pystr "`)\n                WHERE n1.id = %s AND n2.id = %s DELETE r\n            "

/-- Query text of `delete.delete_entity` (base.py line 155). -/
def deleteEntityQuery (label : PyStr) : PyStr :=
  pystr "MATCH (n:`" ++ label ++ pystr "`) WHERE n.id = %s DELETE n"

/-- Query text of `delete.check_edges` (base.py lines 161–164). -/
def checkEdgesQuery (label : PyStr) : PyStr :=
  pystr "\n                MATCH (n1:`" ++ label ++
  pystr "`)--()\n                WHERE n1.id = %s RETURN count(*)\n            "

/-- The message of the `ValueError` raised by `__init__` on any connection
failure (base.py lines 66–69; the two adjacent string literals concatenate
with no separator). -/
def connectFailMsg : String :=
  "Could not connect to Postgres." ++
  "Please ensure that the configuration is correct."

namespace PostgresGraphStore

/-- `__init__` (base.py lines 59–69): the outcome of `age.connect` is the
argument (`Except.error cause` stands for any raised exception with its
cause); any exception is caught and replaced by one fixed `ValueError`. -/
def connectInit (connectResult : Except String Unit) : Except PyError Unit :=
  match connectResult with
  | Except.ok _ => Except.ok ()
  | Except.error _ => Except.error (PyError.valueError connectFailMsg)

/-- `get_schema` (base.py lines 181–186): always raises
`NotImplementedError`; the second component is the list of `execCypher`
calls issued (none). -/
def get_schema (refresh : Bool) : Except PyError String × List CypherCall :=
  (Except.error PyError.notImplementedError, [])

/-- `query` (base.py lines 188–191): always raises `NotImplementedError`;
no `execCypher` call is issued. -/
def query (q : PyStr) (paramMap : List (PyStr × PyStr)) :
    Except PyError Unit × List CypherCall :=
  (Except.error PyError.notImplementedError, [])

/-- The row loop of `delete.check_edges` (base.py lines 166–169):
`for row in cursor: result = bool(row[0])` then `return result`.  Each row
of the count query is its single integer column.  After the loop `result`
holds the value from the last row; if the cursor yielded no rows, `result`
was never assigned and reading it raises `UnboundLocalError`. -/
def check_edges_rows (rows : List Nat) : Except PyError Bool :=
  match rows.getLast? with
  | some c => Except.ok (c != 0)
  | none => Except.error (PyError.unboundLocalError "result")

end PostgresGraphStore

/-- The graph state reachable through this adapter: the ids of the nodes
carrying the configured label, and the directed typed edges
`(source id, edge type, target id)`.  Every node created by the adapter
has the one configured label and an `id` property, so a node is identified
with its id. -/
structure Graph where
  nodes : List PyStr
  edges : List (PyStr × PyStr × PyStr)
deriving DecidableEq, Repr

/-- Well-formed property-graph state: every edge connects existing nodes
(a graph engine never stores dangling edges; all states the adapter can
produce from such a state are again well-formed). -/
def Graph.WF (g : Graph) : Prop :=
  ∀ e ∈ g.edges, e.1 ∈ g.nodes ∧ e.2.2 ∈ g.nodes

instance (g : Graph) : Decidable g.WF :=
  List.decidableBAll _ g.edges

/-- Semantics of `MERGE (n:`Label` {id: %s})`: match the node with this id,
creating it when absent. -/
def Graph.mergeNode (g : Graph) (i : PyStr) : Graph :=
  if i ∈ g.nodes then g else { g with nodes := g.nodes ++ [i] }

/-- Semantics of `MERGE (n1)-[:`REL`]->(n2)` with `n1`, `n2` bound to the
nodes with ids `s`, `o`: match the directed edge of this type between
them, creating it when absent. -/
def Graph.mergeEdge (g : Graph) (s r o : PyStr) : Graph :=
  if (s, r, o) ∈ g.edges then g else { g with edges := g.edges ++ [(s, r, o)] }

namespace PostgresGraphStore

/-- `get` (base.py lines 78–91): semantics of
`MATCH (n1:L)-[r]->(n2:L) WHERE n1.id = %s RETURN type(r), n2.id` —
every stored edge whose endpoints are existing labelled nodes and whose
source id is `subj`, returned as its `(type, target id)` row. -/
def get (g : Graph) (subj : PyStr) : List (PyStr × PyStr) :=
  (g.edges.filter
    (fun e => decide (e.1 ∈ g.nodes ∧ e.2.2 ∈ g.nodes ∧ e.1 = subj))).map
    (fun e => (e.2.1, e.2.2))

/-- `upsert_triplet` (base.py lines 129–139): normalise the relation, then
`MERGE` the subject node, the object node and the typed edge in one
statement. -/
def upsert_triplet (g : Graph) (subj rel obj : PyStr) : Graph :=
  ((g.mergeNode subj).mergeNode obj).mergeEdge subj (upsertNormalizeRel rel) obj

/-- `delete.delete_rel` (base.py lines 144–152): semantics of
`MATCH (n1:L)-[r:REL]->(n2:L) WHERE n1.id = %s AND n2.id = %s DELETE r` —
remove every matching edge between existing labelled nodes. -/
def delete_rel (g : Graph) (subj rel obj : PyStr) : Graph :=
  let keep := fun (e : PyStr × PyStr × PyStr) =>
    ! decide (e.1 ∈ g.nodes ∧ e.2.2 ∈ g.nodes ∧
      e.1 = subj ∧ e.2.1 = deleteNormalizeRel rel ∧ e.2.2 = obj)
  { g with edges := g.edges.filter keep }

/-- `delete.delete_entity` (base.py lines 154–158): semantics of
`MATCH (n:L) WHERE n.id = %s DELETE n` — remove every node with this id
(the adapter only reaches this statement for edge-less nodes). -/
def delete_entity (g : Graph) (entity : PyStr) : Graph :=
  { g with nodes := g.nodes.filter (fun n => ! decide (n = entity)) }

/-- The count computed by `delete.check_edges`'s query (base.py lines
161–164): `MATCH (n1:L)--() WHERE n1.id = %s RETURN count(*)` — the number
of stored edges incident (in either direction) to the node with this id,
both endpoints existing.  (Cypher counts a self-loop twice; zero-ness,
which is all the adapter consumes, is unaffected.) -/
def checkEdgesCount (g : Graph) (entity : PyStr) : Nat :=
  (g.edges.filter
    (fun e => decide ((e.1 = entity ∨ e.2.2 = entity) ∧
      e.1 ∈ g.nodes ∧ e.2.2 ∈ g.nodes))).length

/-- `delete.check_edges` (base.py lines 160–169) when the engine returns
the count row: `bool(count)`. -/
def check_edges (g : Graph) (entity : PyStr) : Bool :=
  checkEdgesCount g entity != 0

/-- The `if not check_edges(x): delete_entity(x)` step of `delete`
(base.py lines 172–175). -/
def deleteEntityIfOrphan (g : Graph) (entity : PyStr) : Graph :=
  if check_edges g entity then g else delete_entity g entity

/-- `delete` (base.py lines 141–175): delete the matching edge, then check
the subject and delete it when edge-less, then check the object and delete
it when edge-less — in that order. -/
def delete (g : Graph) (subj rel obj : PyStr) : Graph :=
  deleteEntityIfOrphan (deleteEntityIfOrphan (delete_rel g subj rel obj) subj) obj

/-- One row of the `get_rel_map` result: `(subj, flattened_rels)` where
`flattened_rels` is a list of `(relation type, node id)` hops. -/
abbrev RelMapRow := PyStr × List (PyStr × PyStr)

/-- Python `rel_map[key] = value` on the insertion-ordered dict modelled
as an association list. -/
def dictSet (m : List RelMapRow) (k : PyStr) (v : List (PyStr × PyStr)) :
    List RelMapRow :=
  if (m.map Prod.fst).contains k then
    m.map (fun p => if p.1 = k then (k, v) else p)
  else m ++ [(k, v)]

/-- `get_rel_map` (base.py lines 93–127).  `engine` gives the rows the
external engine returns for a call.  With `subjs` absent (`none`) or
empty, the method returns the empty dict before building or executing any
query; otherwise it issues exactly one `execCypher` call — the f-string
with `depth`, `limit` and the lower-cased subject list spliced into the
text and no bound parameters — and folds the rows into the dict.  The
second component records the calls issued. -/
def get_rel_map (label : PyStr) (subjs : Option (List PyStr))
    (depth limit : Nat) (engine : CypherCall → List RelMapRow) :
    List RelMapRow × List CypherCall :=
  match subjs with
  | none => ([], [])
  | some [] => ([], [])
  | some ss =>
      let call : CypherCall :=
        ⟨getRelMapQuery label depth limit ss, some [pystr "subj", pystr "rels"], []⟩
      ((engine call).foldl (fun m row => dictSet m row.1 row.2) [], [call])

/-- The single `execCypher` call issued by `upsert_triplet`
(base.py line 138): label and normalised relation interpolated into the
text, the subject and object ids bound as the positional parameters. -/
def upsert_triplet_calls (label subj rel obj : PyStr) : List CypherCall :=
  [⟨upsertQuery label (upsertNormalizeRel rel), none, [subj, obj]⟩]

/-- The single `execCypher` call issued by `delete.delete_rel`
(base.py line 151). -/
def delete_rel_calls (label subj rel obj : PyStr) : List CypherCall :=
  [⟨deleteRelQuery label (deleteNormalizeRel rel), none, [subj, obj]⟩]

end PostgresGraphStore

section HelperLemmas

/-- A list is an infix of anything it is sandwiched inside of. -/
theorem isInfix_parts {α : Type} (a c : List α) {b w : List α}
    (h : a ++ b ++ c = w) : b <:+: w := ⟨a, c, h⟩

theorem pystr_append (s t : String) : pystr (s ++ t) = pystr s ++ pystr t :=
  String.data_append s t

end HelperLemmas

/-- C4: `upsert_triplet` and `delete` normalise the relation identically:
every space becomes an underscore and the result is upper-cased
(character by character); in particular `"is friend"` is stored and
matched as edge type `IS_FRIEND`. -/
theorem relation_normalization_agrees :
    (∀ r : PyStr, upsertNormalizeRel r = deleteNormalizeRel r ∧
      upsertNormalizeRel r = r.map (fun c => if c = ' ' then '_' else c.toUpper)) ∧
    upsertNormalizeRel (pystr "is friend") = pystr "IS_FRIEND" := by
  refine ⟨fun r => ⟨rfl, ?_⟩, by decide⟩
  unfold upsertNormalizeRel pyUpper pyReplaceSpaceUnderscore
  rw [List.map_map]
  refine List.map_congr_left fun c _ => ?_
  by_cases hc : c = ' ' <;> simp [hc, Function.comp]

/-- C5: with `subjects` absent or empty, `get_rel_map` returns the empty
mapping and issues no query at all, for every depth, limit and engine. -/
theorem get_rel_map_empty_subjects (label : PyStr) (depth limit : Nat)
    (engine : CypherCall → List PostgresGraphStore.RelMapRow) :
    PostgresGraphStore.get_rel_map label none depth limit engine = ([], []) ∧
    PostgresGraphStore.get_rel_map label (some []) depth limit engine = ([], []) :=
  ⟨rfl, rfl⟩

/-- C6 counterexample: on a failed connection the constructor raises
`ValueError` (base.py line 66), not `ConnectionError` as the claim
states. -/
theorem connect_failure_raises_valueError :
    PostgresGraphStore.connectInit (Except.error "auth failure") =
      Except.error (PyError.valueError connectFailMsg) ∧
    Except.error (α := Unit) (PyError.valueError connectFailMsg) ≠
      Except.error (PyError.connectionError) :=
  ⟨rfl, by simp⟩

/-- C6 amended: if the underlying client cannot establish the connection,
the constructor fails with a single generic `ValueError` whose fixed
message does not depend on the underlying cause — auth failure, network
failure and missing graph are all collapsed, and the original cause is
discarded. -/
theorem connect_failure_collapsed (cause otherCause : String) :
    PostgresGraphStore.connectInit (Except.error cause) =
      Except.error (PyError.valueError connectFailMsg) ∧
    PostgresGraphStore.connectInit (Except.error cause) =
      PostgresGraphStore.connectInit (Except.error otherCause) :=
  ⟨rfl, rfl⟩

/-- C7: `get_schema` and `query` always raise `NotImplementedError`
(Python's unsupported-operation error, which the spec calls
`NotSupportedError`), whatever their arguments, and issue no call to the
external engine. -/
theorem get_schema_query_always_unsupported (refresh : Bool) (q : PyStr)
    (paramMap : List (PyStr × PyStr)) :
    PostgresGraphStore.get_schema refresh =
      (Except.error PyError.notImplementedError, []) ∧
    PostgresGraphStore.query q paramMap =
      (Except.error PyError.notImplementedError, []) :=
  ⟨rfl, rfl⟩

/-- C9: `delete.check_edges` raises `UnboundLocalError` on `result`
exactly when the cursor yields no rows; on the single row the count query
actually produces it returns `bool(count)`, agreeing with the graph-state
semantics `check_edges`. -/
theorem check_edges_unbound_iff_no_rows :
    (∀ rows : List Nat,
      (∃ e, PostgresGraphStore.check_edges_rows rows = Except.error e) ↔ rows = []) ∧
    PostgresGraphStore.check_edges_rows [] =
      Except.error (PyError.unboundLocalError "result") ∧
    (∀ (g : Graph) (entity : PyStr),
      PostgresGraphStore.check_edges_rows [PostgresGraphStore.checkEdgesCount g entity] =
        Except.ok (PostgresGraphStore.check_edges g entity)) := by
  refine ⟨fun rows => ?_, rfl, fun g entity => rfl⟩
  unfold PostgresGraphStore.check_edges_rows
  cases h : rows.getLast? with
  | none => simp_all
  | some c =>
      simp only [List.getLast?_eq_none_iff] at *
      constructor
      · rintro ⟨e, he⟩; cases he
      · intro hnil; rw [hnil] at h; cases h

/-- C10: `upsert_triplet` and `delete.delete_rel` bind only the subject
and object ids as positional query parameters; the normalised relation
type and the configured node label appear verbatim inside the executed
query text. -/
theorem only_ids_bound_as_params (label subj rel obj : PyStr) :
    PostgresGraphStore.upsert_triplet_calls label subj rel obj =
      [⟨upsertQuery label (upsertNormalizeRel rel), none, [subj, obj]⟩] ∧
    upsertNormalizeRel rel <:+: upsertQuery label (upsertNormalizeRel rel) ∧
    label <:+: upsertQuery label (upsertNormalizeRel rel) ∧
    PostgresGraphStore.delete_rel_calls label subj rel obj =
      [⟨deleteRelQuery label (deleteNormalizeRel rel), none, [subj, obj]⟩] ∧
    deleteNormalizeRel rel <:+: deleteRelQuery label (deleteNormalizeRel rel) ∧
    label <:+: deleteRelQuery label (deleteNormalizeRel rel) := by
  refine ⟨rfl, ?_, ?_, rfl, ?_, ?_⟩
  · unfold upsertQuery
    exact isInfix_parts
      (pystr "\n            MERGE (n1:`" ++ label ++
        pystr "` \x7bid: %s\x7d)\n            MERGE (n2:`" ++ label ++
        pystr "` \x7bid: %s\x7d)\n            MERGE (n1)-[:`")
      (pystr "`]->(n2)\n        ")
      (by simp [List.append_assoc])
  · unfold upsertQuery
    exact isInfix_parts (pystr "\n            MERGE (n1:`")
      (pystr "` \x7bid: %s\x7d)\n            MERGE (n2:`" ++ label ++
        pystr "` \x7bid: %s\x7d)\n            MERGE (n1)-[:`" ++
        upsertNormalizeRel rel ++ pystr "`]->(n2)\n        ")
      (by simp [List.append_assoc])
  · unfold deleteRelQuery
    exact isInfix_parts
      (pystr "\n                MATCH (n1:`" ++ label ++ pystr "`)-[r:`")
      (pystr "`]->(n2:`" ++ label ++
        pystr "`)\n                WHERE n1.id = %s AND n2.id = %s DELETE r\n            ")
      (by simp [List.append_assoc])
  · unfold deleteRelQuery
    exact isInfix_parts (pystr "\n                MATCH (n1:`")
      (pystr "`)-[r:`" ++ deleteNormalizeRel rel ++ pystr "`]->(n2:`" ++ label ++
        pystr "`)\n                WHERE n1.id = %s AND n2.id = %s DELETE r\n            ")
      (by simp [List.append_assoc])

/-- C8: for a non-empty subjects list, `get_rel_map` issues exactly one
query; the query text contains `depth` and `limit` rendered as decimal
literals and the in-memory lower-cased subject values rendered as a
literal list, and the call binds no parameters at all. -/
theorem get_rel_map_splices_literals (label s0 : PyStr) (rest : List PyStr)
    (depth limit : Nat)
    (engine : CypherCall → List PostgresGraphStore.RelMapRow) :
    (PostgresGraphStore.get_rel_map label (some (s0 :: rest)) depth limit engine).2 =
      [⟨getRelMapQuery label depth limit (s0 :: rest),
        some [pystr "subj", pystr "rels"], []⟩] ∧
    pyStrOfNat depth <:+: getRelMapQuery label depth limit (s0 :: rest) ∧
    pyStrOfNat limit <:+: getRelMapQuery label depth limit (s0 :: rest) ∧
    pyListRepr ((s0 :: rest).map pyLower) <:+:
      getRelMapQuery label depth limit (s0 :: rest) := by
  refine ⟨rfl, ?_, ?_, ?_⟩
  · unfold getRelMapQuery
    exact isInfix_parts
      (pystr "\n            MATCH p=(n1:`" ++ label ++ pystr "`)-[*1..")
      (pystr "]->()\n            WHERE toLower(n1.id) IN " ++
        pyListRepr ((s0 :: rest).map pyLower) ++
        pystr "\n            UNWIND relationships(p) AS rel WITH n1.id AS subj, p,\n            collect([type(rel), endNode(rel).id]) AS flattened_rels\n            UNWIND flattened_rels as fr\n            WITH DISTINCT fr, subj\n            RETURN subj, collect(fr) AS flattened_rels LIMIT " ++
        pyStrOfNat limit ++ pystr "\n        ")
      (by simp [List.append_assoc])
  · unfold getRelMapQuery
    exact isInfix_parts
      (pystr "\n            MATCH p=(n1:`" ++ label ++ pystr "`)-[*1.." ++
        pyStrOfNat depth ++
        pystr "]->()\n            WHERE toLower(n1.id) IN " ++
        pyListRepr ((s0 :: rest).map pyLower) ++
        pystr "\n            UNWIND relationships(p) AS rel WITH n1.id AS subj, p,\n            collect([type(rel), endNode(rel).id]) AS flattened_rels\n            UNWIND flattened_rels as fr\n            WITH DISTINCT fr, subj\n            RETURN subj, collect(fr) AS flattened_rels LIMIT ")
      (pystr "\n        ")
      (by simp [List.append_assoc])
  · unfold getRelMapQuery
    exact isInfix_parts
      (pystr "\n            MATCH p=(n1:`" ++ label ++ pystr "`)-[*1.." ++
        pyStrOfNat depth ++
        pystr "]->()\n            WHERE toLower(n1.id) IN ")
      (pystr "\n            UNWIND relationships(p) AS rel WITH n1.id AS subj, p,\n            collect([type(rel), endNode(rel).id]) AS flattened_rels\n            UNWIND flattened_rels as fr\n            WITH DISTINCT fr, subj\n            RETURN subj, collect(fr) AS flattened_rels LIMIT " ++
        pyStrOfNat limit ++ pystr "\n        ")
      (by simp [List.append_assoc])

section MergeLemmas

theorem Graph.mergeNode_edges (g : Graph) (i : PyStr) :
    (g.mergeNode i).edges = g.edges := by
  unfold Graph.mergeNode; split <;> rfl

theorem Graph.mergeEdge_nodes (g : Graph) (s r o : PyStr) :
    (g.mergeEdge s r o).nodes = g.nodes := by
  unfold Graph.mergeEdge; split <;> rfl

theorem Graph.mem_mergeNode_self (g : Graph) (i : PyStr) :
    i ∈ (g.mergeNode i).nodes := by
  unfold Graph.mergeNode; split
  · assumption
  · simp

theorem Graph.mem_mergeNode_of_mem (g : Graph) (i j : PyStr)
    (h : j ∈ g.nodes) : j ∈ (g.mergeNode i).nodes := by
  unfold Graph.mergeNode; split
  · exact h
  · simp [h]

theorem Graph.mem_mergeEdge_self (g : Graph) (s r o : PyStr) :
    (s, r, o) ∈ (g.mergeEdge s r o).edges := by
  unfold Graph.mergeEdge; split
  · assumption
  · simp

theorem Graph.mergeNode_eq_of_mem (g : Graph) (i : PyStr)
    (h : i ∈ g.nodes) : g.mergeNode i = g := by
  unfold Graph.mergeNode; simp [h]

theorem Graph.mergeEdge_eq_of_mem (g : Graph) (s r o : PyStr)
    (h : (s, r, o) ∈ g.edges) : g.mergeEdge s r o = g := by
  unfold Graph.mergeEdge; simp [h]

theorem Graph.mergeNode_nodup (g : Graph) (i : PyStr)
    (h : g.nodes.Nodup) : (g.mergeNode i).nodes.Nodup := by
  unfold Graph.mergeNode; split
  · exact h
  · next hmem =>
      exact h.append (List.nodup_singleton i) (List.disjoint_singleton.2 hmem)

theorem Graph.mergeEdge_nodup (g : Graph) (s r o : PyStr)
    (h : g.edges.Nodup) : (g.mergeEdge s r o).edges.Nodup := by
  unfold Graph.mergeEdge; split
  · exact h
  · next hmem =>
      exact h.append (List.nodup_singleton _) (List.disjoint_singleton.2 hmem)

theorem upsert_subj_mem (g : Graph) (s r o : PyStr) :
    s ∈ (PostgresGraphStore.upsert_triplet g s r o).nodes := by
  unfold PostgresGraphStore.upsert_triplet
  rw [Graph.mergeEdge_nodes]
  exact Graph.mem_mergeNode_of_mem _ _ _ (Graph.mem_mergeNode_self g s)

theorem upsert_obj_mem (g : Graph) (s r o : PyStr) :
    o ∈ (PostgresGraphStore.upsert_triplet g s r o).nodes := by
  unfold PostgresGraphStore.upsert_triplet
  rw [Graph.mergeEdge_nodes]
  exact Graph.mem_mergeNode_self _ o

theorem upsert_edge_mem (g : Graph) (s r o : PyStr) :
    (s, upsertNormalizeRel r, o) ∈ (PostgresGraphStore.upsert_triplet g s r o).edges :=
  Graph.mem_mergeEdge_self _ s (upsertNormalizeRel r) o

end MergeLemmas

/-- C1: for every graph state and every subject, relation and object,
`upsert_triplet` followed by `get(subject)` yields a result containing
the pair `(normalised relation, object)`. -/
theorem upsert_then_get_includes (g : Graph) (s r o : PyStr) :
    (upsertNormalizeRel r, o) ∈
      PostgresGraphStore.get (PostgresGraphStore.upsert_triplet g s r o) s := by
  unfold PostgresGraphStore.get
  refine List.mem_map.2 ⟨(s, upsertNormalizeRel r, o), ?_, rfl⟩
  refine List.mem_filter.2 ⟨upsert_edge_mem g s r o, ?_⟩
  simp only [decide_eq_true_eq]
  exact ⟨upsert_subj_mem g s r o, upsert_obj_mem g s r o, trivial⟩

/-- C2: upserting the same triplet twice produces the very same state as
upserting it once, so `get(subject)` is unchanged in cardinality; and on
duplicate-free states upsert creates neither a duplicate node id nor a
parallel duplicate edge of the same type between the same ordered pair. -/
theorem upsert_idempotent (g : Graph) (s r o : PyStr)
    (hn : g.nodes.Nodup) (he : g.edges.Nodup) :
    PostgresGraphStore.upsert_triplet (PostgresGraphStore.upsert_triplet g s r o) s r o =
      PostgresGraphStore.upsert_triplet g s r o ∧
    (PostgresGraphStore.get
        (PostgresGraphStore.upsert_triplet (PostgresGraphStore.upsert_triplet g s r o) s r o)
        s).length =
      (PostgresGraphStore.get (PostgresGraphStore.upsert_triplet g s r o) s).length ∧
    (PostgresGraphStore.upsert_triplet g s r o).nodes.Nodup ∧
    (PostgresGraphStore.upsert_triplet g s r o).edges.Nodup := by
  have hidem :
      PostgresGraphStore.upsert_triplet (PostgresGraphStore.upsert_triplet g s r o) s r o =
        PostgresGraphStore.upsert_triplet g s r o := by
    show (((PostgresGraphStore.upsert_triplet g s r o).mergeNode s).mergeNode o).mergeEdge
        s (upsertNormalizeRel r) o = PostgresGraphStore.upsert_triplet g s r o
    rw [Graph.mergeNode_eq_of_mem _ _ (upsert_subj_mem g s r o)]
    rw [Graph.mergeNode_eq_of_mem _ _ (upsert_obj_mem g s r o)]
    rw [Graph.mergeEdge_eq_of_mem _ _ _ _ (upsert_edge_mem g s r o)]
  refine ⟨hidem, by rw [hidem], ?_, ?_⟩
  · unfold PostgresGraphStore.upsert_triplet
    rw [Graph.mergeEdge_nodes]
    exact Graph.mergeNode_nodup _ _ (Graph.mergeNode_nodup _ _ hn)
  · unfold PostgresGraphStore.upsert_triplet
    refine Graph.mergeEdge_nodup _ _ _ _ ?_
    rw [Graph.mergeNode_edges, Graph.mergeNode_edges]
    exact he

/-- Witness for C2 at a concrete duplicate-free state. -/
theorem upsert_idempotent_witness :
    ((Graph.mk [pystr "b"] []).nodes.Nodup ∧ (Graph.mk [pystr "b"] []).edges.Nodup) ∧
    (PostgresGraphStore.upsert_triplet
        (PostgresGraphStore.upsert_triplet (Graph.mk [pystr "b"] []) (pystr "a") (pystr "is friend") (pystr "b"))
        (pystr "a") (pystr "is friend") (pystr "b") =
      PostgresGraphStore.upsert_triplet (Graph.mk [pystr "b"] []) (pystr "a") (pystr "is friend") (pystr "b") ∧
    (PostgresGraphStore.get
        (PostgresGraphStore.upsert_triplet
          (PostgresGraphStore.upsert_triplet (Graph.mk [pystr "b"] []) (pystr "a") (pystr "is friend") (pystr "b"))
          (pystr "a") (pystr "is friend") (pystr "b"))
        (pystr "a")).length =
      (PostgresGraphStore.get
        (PostgresGraphStore.upsert_triplet (Graph.mk [pystr "b"] []) (pystr "a") (pystr "is friend") (pystr "b"))
        (pystr "a")).length ∧
    (PostgresGraphStore.upsert_triplet (Graph.mk [pystr "b"] []) (pystr "a") (pystr "is friend") (pystr "b")).nodes.Nodup ∧
    (PostgresGraphStore.upsert_triplet (Graph.mk [pystr "b"] []) (pystr "a") (pystr "is friend") (pystr "b")).edges.Nodup) :=
  ⟨⟨by decide, by decide⟩,
    upsert_idempotent (Graph.mk [pystr "b"] []) (pystr "a") (pystr "is friend") (pystr "b")
      (by decide) (by decide)⟩

section DeleteLemmas

theorem delete_rel_nodes (g : Graph) (s r o : PyStr) :
    (PostgresGraphStore.delete_rel g s r o).nodes = g.nodes := rfl

theorem delete_entity_edges (g : Graph) (i : PyStr) :
    (PostgresGraphStore.delete_entity g i).edges = g.edges := rfl

theorem delete_entity_not_mem (g : Graph) (i : PyStr) :
    i ∉ (PostgresGraphStore.delete_entity g i).nodes := by
  unfold PostgresGraphStore.delete_entity
  simp

theorem delete_entity_mem_of (g : Graph) (i j : PyStr)
    (hj : j ∈ g.nodes) (hne : j ≠ i) :
    j ∈ (PostgresGraphStore.delete_entity g i).nodes := by
  unfold PostgresGraphStore.delete_entity
  simp [hj, hne]

theorem delete_entity_mem_imp (g : Graph) (i j : PyStr)
    (hj : j ∈ (PostgresGraphStore.delete_entity g i).nodes) : j ∈ g.nodes := by
  unfold PostgresGraphStore.delete_entity at hj
  exact (List.mem_filter.1 hj).1

theorem delete_rel_WF (g : Graph) (s r o : PyStr) (hwf : g.WF) :
    (PostgresGraphStore.delete_rel g s r o).WF := by
  intro e he
  unfold PostgresGraphStore.delete_rel at he
  exact hwf e (List.mem_filter.1 he).1

/-- `check_edges` is `false` exactly when no stored edge between existing
nodes is incident to the entity. -/
theorem check_edges_false_iff (g : Graph) (i : PyStr) :
    PostgresGraphStore.check_edges g i = false ↔
      ∀ e ∈ g.edges,
        ¬((e.1 = i ∨ e.2.2 = i) ∧ e.1 ∈ g.nodes ∧ e.2.2 ∈ g.nodes) := by
  unfold PostgresGraphStore.check_edges PostgresGraphStore.checkEdgesCount
  simp

theorem check_edges_false_no_incident (g : Graph) (i : PyStr) (hwf : g.WF)
    (h : PostgresGraphStore.check_edges g i = false) :
    ∀ e ∈ g.edges, ¬(e.1 = i ∨ e.2.2 = i) := by
  intro e he hor
  exact (check_edges_false_iff g i).1 h e he ⟨hor, (hwf e he).1, (hwf e he).2⟩

theorem delete_entity_WF (g : Graph) (i : PyStr) (hwf : g.WF)
    (h : PostgresGraphStore.check_edges g i = false) :
    (PostgresGraphStore.delete_entity g i).WF := by
  intro e he
  rw [delete_entity_edges] at he
  have hni := check_edges_false_no_incident g i hwf h e he
  push_neg at hni
  exact ⟨delete_entity_mem_of g i _ (hwf e he).1 hni.1,
    delete_entity_mem_of g i _ (hwf e he).2 hni.2⟩

/-- Removing an edge-less node does not change any `check_edges` count. -/
theorem delete_entity_check (g : Graph) (i : PyStr) (hwf : g.WF)
    (h : PostgresGraphStore.check_edges g i = false) (j : PyStr) :
    PostgresGraphStore.check_edges (PostgresGraphStore.delete_entity g i) j =
      PostgresGraphStore.check_edges g j := by
  unfold PostgresGraphStore.check_edges PostgresGraphStore.checkEdgesCount
  rw [delete_entity_edges]
  congr 1
  refine congrArg List.length (List.filter_congr ?_)
  intro e he
  have hni := check_edges_false_no_incident g i hwf h e he
  push_neg at hni
  have h1 : (e.1 ∈ (PostgresGraphStore.delete_entity g i).nodes) ↔ e.1 ∈ g.nodes :=
    ⟨delete_entity_mem_imp g i e.1, fun hm => delete_entity_mem_of g i e.1 hm hni.1⟩
  have h2 : (e.2.2 ∈ (PostgresGraphStore.delete_entity g i).nodes) ↔ e.2.2 ∈ g.nodes :=
    ⟨delete_entity_mem_imp g i e.2.2, fun hm => delete_entity_mem_of g i e.2.2 hm hni.2⟩
  simp [h1, h2]

theorem orphan_step_edges (g : Graph) (i : PyStr) :
    (PostgresGraphStore.deleteEntityIfOrphan g i).edges = g.edges := by
  unfold PostgresGraphStore.deleteEntityIfOrphan
  split <;> simp [delete_entity_edges]

theorem orphan_step_WF (g : Graph) (i : PyStr) (hwf : g.WF) :
    (PostgresGraphStore.deleteEntityIfOrphan g i).WF := by
  unfold PostgresGraphStore.deleteEntityIfOrphan
  split
  · exact hwf
  · next h => exact delete_entity_WF g i hwf (Bool.not_eq_true _ ▸ by simpa using h)

theorem orphan_step_check (g : Graph) (i : PyStr) (hwf : g.WF) (j : PyStr) :
    PostgresGraphStore.check_edges (PostgresGraphStore.deleteEntityIfOrphan g i) j =
      PostgresGraphStore.check_edges g j := by
  unfold PostgresGraphStore.deleteEntityIfOrphan
  split
  · rfl
  · next h => exact delete_entity_check g i hwf (by simpa using h) j

theorem orphan_step_mem_imp (g : Graph) (i j : PyStr)
    (hj : j ∈ (PostgresGraphStore.deleteEntityIfOrphan g i).nodes) : j ∈ g.nodes := by
  unfold PostgresGraphStore.deleteEntityIfOrphan at hj
  split at hj
  · exact hj
  · exact delete_entity_mem_imp g i j hj

theorem orphan_step_self_check (g : Graph) (i : PyStr)
    (hi : i ∈ (PostgresGraphStore.deleteEntityIfOrphan g i).nodes) :
    PostgresGraphStore.check_edges g i = true := by
  unfold PostgresGraphStore.deleteEntityIfOrphan at hi
  split at hi
  · assumption
  · exact absurd hi (delete_entity_not_mem g i)

theorem orphan_step_mem_of (g : Graph) (i j : PyStr) (hj : j ∈ g.nodes)
    (h : j ≠ i ∨ PostgresGraphStore.check_edges g i = true) :
    j ∈ (PostgresGraphStore.deleteEntityIfOrphan g i).nodes := by
  unfold PostgresGraphStore.deleteEntityIfOrphan
  split
  · exact hj
  · next hc =>
      rcases h with hne | htrue
      · exact delete_entity_mem_of g i j hj hne
      · exact absurd htrue hc

end DeleteLemmas

theorem delete_rel_removes (g : Graph) (s r o : PyStr) (hwf : g.WF) :
    (s, deleteNormalizeRel r, o) ∉ (PostgresGraphStore.delete_rel g s r o).edges := by
  intro hmem
  simp only [PostgresGraphStore.delete_rel, List.mem_filter, Bool.not_eq_true',
    decide_eq_false_iff_not] at hmem
  exact hmem.2 ⟨(hwf _ hmem.1).1, (hwf _ hmem.1).2, trivial, trivial, trivial⟩

/-- C3: `delete` is the edge deletion followed by the subject orphan check
and then the object orphan check, in that order; on a well-formed state
the matching edge is gone afterwards, no endpoint survives with zero
remaining edges, and an endpoint that still had edges after the edge
deletion survives. -/
theorem delete_no_orphan_endpoints (g : Graph) (s r o : PyStr) (hwf : g.WF) :
    PostgresGraphStore.delete g s r o =
      PostgresGraphStore.deleteEntityIfOrphan
        (PostgresGraphStore.deleteEntityIfOrphan
          (PostgresGraphStore.delete_rel g s r o) s) o ∧
    (s, deleteNormalizeRel r, o) ∉ (PostgresGraphStore.delete g s r o).edges ∧
    (s ∈ (PostgresGraphStore.delete g s r o).nodes →
      PostgresGraphStore.check_edges (PostgresGraphStore.delete g s r o) s = true) ∧
    (o ∈ (PostgresGraphStore.delete g s r o).nodes →
      PostgresGraphStore.check_edges (PostgresGraphStore.delete g s r o) o = true) ∧
    (s ∈ g.nodes →
      PostgresGraphStore.check_edges (PostgresGraphStore.delete_rel g s r o) s = true →
      s ∈ (PostgresGraphStore.delete g s r o).nodes) ∧
    (o ∈ g.nodes →
      PostgresGraphStore.check_edges (PostgresGraphStore.delete_rel g s r o) o = true →
      o ∈ (PostgresGraphStore.delete g s r o).nodes) := by
  have hwf1 : (PostgresGraphStore.delete_rel g s r o).WF := delete_rel_WF g s r o hwf
  have hwfS : (PostgresGraphStore.deleteEntityIfOrphan
      (PostgresGraphStore.delete_rel g s r o) s).WF :=
    orphan_step_WF _ s hwf1
  have hdel : PostgresGraphStore.delete g s r o =
      PostgresGraphStore.deleteEntityIfOrphan
        (PostgresGraphStore.deleteEntityIfOrphan
          (PostgresGraphStore.delete_rel g s r o) s) o := rfl
  refine ⟨rfl, ?_, ?_, ?_, ?_, ?_⟩
  · rw [hdel, orphan_step_edges, orphan_step_edges]
    exact delete_rel_removes g s r o hwf
  · intro hs
    rw [hdel] at hs ⊢
    have hs1 := orphan_step_mem_imp _ o s hs
    have hcheck := orphan_step_self_check _ s hs1
    rw [orphan_step_check _ o hwfS s, orphan_step_check _ s hwf1 s]
    exact hcheck
  · intro ho
    rw [hdel] at ho ⊢
    have hcheck := orphan_step_self_check _ o ho
    rw [orphan_step_check _ o hwfS o]
    exact hcheck
  · intro hsg hch
    rw [hdel]
    have hs1 : s ∈ (PostgresGraphStore.delete_rel g s r o).nodes := by
      rw [delete_rel_nodes]; exact hsg
    have hsS := orphan_step_mem_of _ s s hs1 (Or.inr hch)
    apply orphan_step_mem_of _ o s hsS
    by_cases hso : s = o
    · subst hso
      right
      rw [orphan_step_check _ s hwf1 s]
      exact hch
    · exact Or.inl hso
  · intro hog hch
    rw [hdel]
    have ho1 : o ∈ (PostgresGraphStore.delete_rel g s r o).nodes := by
      rw [delete_rel_nodes]; exact hog
    have hoS : o ∈ (PostgresGraphStore.deleteEntityIfOrphan
        (PostgresGraphStore.delete_rel g s r o) s).nodes := by
      apply orphan_step_mem_of _ s o ho1
      by_cases hos : o = s
      · subst hos; exact Or.inr hch
      · exact Or.inl hos
    apply orphan_step_mem_of _ o o hoS
    right
    rw [orphan_step_check _ s hwf1 o]
    exact hch

/-- A concrete well-formed state: `a` has edges to `b` and to `c`. -/
def sampleGraph : Graph :=
  ⟨[pystr "a", pystr "b", pystr "c"],
   [(pystr "a", pystr "R", pystr "b"), (pystr "a", pystr "S", pystr "c")]⟩

/-- Witness for C3 at a concrete well-formed state. -/
theorem delete_no_orphan_endpoints_witness :
    sampleGraph.WF ∧
    (PostgresGraphStore.delete sampleGraph (pystr "a") (pystr "r") (pystr "b") =
      PostgresGraphStore.deleteEntityIfOrphan
        (PostgresGraphStore.deleteEntityIfOrphan
          (PostgresGraphStore.delete_rel sampleGraph (pystr "a") (pystr "r") (pystr "b"))
          (pystr "a"))
        (pystr "b") ∧
    (pystr "a", deleteNormalizeRel (pystr "r"), pystr "b") ∉
      (PostgresGraphStore.delete sampleGraph (pystr "a") (pystr "r") (pystr "b")).edges ∧
    (pystr "a" ∈ (PostgresGraphStore.delete sampleGraph (pystr "a") (pystr "r") (pystr "b")).nodes →
      PostgresGraphStore.check_edges
        (PostgresGraphStore.delete sampleGraph (pystr "a") (pystr "r") (pystr "b"))
        (pystr "a") = true) ∧
    (pystr "b" ∈ (PostgresGraphStore.delete sampleGraph (pystr "a") (pystr "r") (pystr "b")).nodes →
      PostgresGraphStore.check_edges
        (PostgresGraphStore.delete sampleGraph (pystr "a") (pystr "r") (pystr "b"))
        (pystr "b") = true) ∧
    (pystr "a" ∈ sampleGraph.nodes →
      PostgresGraphStore.check_edges
        (PostgresGraphStore.delete_rel sampleGraph (pystr "a") (pystr "r") (pystr "b"))
        (pystr "a") = true →
      pystr "a" ∈ (PostgresGraphStore.delete sampleGraph (pystr "a") (pystr "r") (pystr "b")).nodes) ∧
    (pystr "b" ∈ sampleGraph.nodes →
      PostgresGraphStore.check_edges
        (PostgresGraphStore.delete_rel sampleGraph (pystr "a") (pystr "r") (pystr "b"))
        (pystr "b") = true →
      pystr "b" ∈ (PostgresGraphStore.delete sampleGraph (pystr "a") (pystr "r") (pystr "b")).nodes)) :=
  ⟨by decide,
    delete_no_orphan_endpoints sampleGraph (pystr "a") (pystr "r") (pystr "b") (by decide)⟩
